import Mathlib

/-!
Verification of the two diagnostic scripts of this repository,
`check_pinecone.py` and `test_setup.py`, against their specification.

Both scripts are straight-line Python: a chain of try/except blocks, each
wrapping calls into external collaborators (dotenv, Pinecone client,
document loader, embedding loader, Gemini client).  We embed each script
shallowly: a `World` structure records the outcome of every external call
the script can make (success with a value, or a raised exception message),
and the script itself becomes a pure Lean function from a world to a
`RunResult` describing everything observable about the run: the lines
printed, the process exit status, the collaborator operations that were
actually invoked, the writes the script's own code performed on the
process environment, and the final environment map.

Python semantics mirrored here:
* `exit(1)` raises `SystemExit`, which `except Exception` does NOT catch,
  so an `exit(1)` inside a try block still terminates the process with
  status 1.
* A script that falls off the end of the module exits with status 0 —
  in particular `check_pinecone.py`'s `except Exception` handler prints
  the error and then falls through, exiting 0.
* `os.environ.get` returns `None` for an unset variable; `if not KEY:`
  fires both on `None` and on the empty string (Python falsiness).
-/

/-- One printed line, tagged by its role in the output.  The numbered
constructors carry the 1-based index of the check a line belongs to
(`test_setup.py` labels its checks 1..7). -/
inductive Line where
  /-- an introductory header line (the 🔍 line / the `"=" * 50` rule) -/
  | header (s : String)
  /-- the line announcing check `k` before its action runs -/
  | beginLine (k : Nat) (s : String)
  /-- the ✅ line reporting success of check `k` -/
  | successLine (k : Nat) (s : String)
  /-- the ❌ line reporting failure of check `k` -/
  | failureLine (k : Nat) (s : String)
  /-- an additional informational line printed inside check `k`
      (the truncated Gemini test response) -/
  | extraLine (k : Nat) (s : String)
  /-- the 💡 tip printed after check `k`'s failure line -/
  | tipLine (k : Nat) (s : String)
  /-- a line of the overall success banner -/
  | bannerLine (s : String)
  /-- a caller-supplied next-steps guidance line -/
  | stepLine (s : String)
  /-- an unnumbered print of `check_pinecone.py` -/
  | infoLine (s : String)
  deriving DecidableEq, Repr

/-- The operations a run can invoke on external collaborators.
`createIndexOp` is in the vocabulary of the vector service but is never
emitted by either script; it lets us state that the scripts are
read-only towards the service. -/
inductive Op where
  | loadDotenvOp
  | loadPdfOp
  | textSplitOp
  | embeddingsOp
  | pineconeCtorOp
  | listIndexesOp
  | createIndexOp
  | geminiCtorOp
  | geminiInvokeOp
  deriving DecidableEq, Repr

/-- Everything observable about one run of a script. -/
structure RunResult where
  /-- the lines printed, in order -/
  lines : List Line
  /-- the process exit status -/
  exitCode : Nat
  /-- the collaborator operations invoked, in order -/
  ops : List Op
  /-- the writes the script's own code performed on `os.environ`
      (key, value written) -/
  envWrites : List (String × String)
  /-- the process environment when the run ends -/
  environFinal : String → Option String

/-- Python truthiness of an `os.environ.get` result: `None` and the empty
string are falsy, every other string is truthy. -/
def truthy : Option String → Bool
  | none => false
  | some s => !(s == "")

/-- Outcomes of every external call `test_setup.py` can make.
`environ0` is the process environment at start; `environ1` is the
environment after a successful `load_dotenv()` (the dotenv library's
effect on the environment is opaque to the script). -/
structure World where
  /-- the `from src.helper import ...` block and the other imports -/
  importsOk : Except String Unit
  /-- `load_dotenv()` -/
  dotenvOk : Except String Unit
  environ0 : String → Option String
  environ1 : String → Option String
  /-- `load_pdf_file(data='Data/')`: the loaded pages, or an exception -/
  loadPdf : Except String (List String)
  /-- `text_split(extracted_data)`: chunks from the loaded pages -/
  textSplit : List String → Except String (List String)
  /-- `download_hugging_face_embeddings()` -/
  embeddings : Except String Unit
  /-- `Pinecone(api_key=...)` -/
  pineconeCtor : Except String Unit
  /-- `pc.list_indexes()`: the index names, or an exception -/
  listIndexes : Except String (List String)
  /-- `ChatGoogleGenerativeAI(model=..., temperature=0.4)` -/
  geminiCtor : Except String Unit
  /-- `llm.invoke("Hello, this is a test.")`: the response content -/
  geminiInvoke : Except String String

/-- The `"=" * 50` separator line. -/
def eqRule : String := String.mk (List.replicate 50 '=')

/-- The 💡 tip text of check 7. -/
def geminiTip : String :=
  "   💡 Tip: Check if your Google API key is valid and has Gemini access enabled"

/-- The final banner and next-steps lines of `test_setup.py`. -/
def finalBanner : List Line :=
  [Line.bannerLine eqRule,
   Line.bannerLine "🎉 ALL TESTS PASSED! Your medical chatbot is ready!",
   Line.bannerLine "📋 Next steps:",
   Line.stepLine "   1. Run: python store_index.py (to create vector database)",
   Line.stepLine "   2. Run: python app.py (to start the web application)",
   Line.stepLine "   3. Open: http://localhost:8080 (to use the chatbot)"]

/-- Shallow embedding of `test_setup.py`: the whole module body, from the
header prints through the seven checks to the banner, as a function of
the outcomes of the external calls. -/
def testSetup (w : World) : RunResult :=
  let ls := [Line.header "🔍 Testing Medical Chatbot Setup...", Line.header eqRule]
  -- Test 1: imports
  let ls := ls ++ [Line.beginLine 1 "1. Testing imports..."]
  match w.importsOk with
  | .error e =>
    { lines := ls ++ [Line.failureLine 1 ("   ❌ Import error: " ++ e)],
      exitCode := 1, ops := [], envWrites := [], environFinal := w.environ0 }
  | .ok _ =>
  let ls := ls ++ [Line.successLine 1 "   ✅ All imports successful!"]
  -- Test 2: environment variables
  let ls := ls ++ [Line.beginLine 2 "2. Testing environment variables..."]
  match w.dotenvOk with
  | .error e =>
    { lines := ls ++ [Line.failureLine 2 ("   ❌ Environment error: " ++ e)],
      exitCode := 1, ops := [Op.loadDotenvOp], envWrites := [],
      environFinal := w.environ0 }
  | .ok _ =>
  let pineKey := w.environ1 "PINECONE_API_KEY"
  let googKey := w.environ1 "GOOGLE_API_KEY"
  if truthy pineKey && truthy googKey then
    let ls := ls ++ [Line.successLine 2 "   ✅ API keys loaded successfully!"]
    -- Test 3: PDF loading
    let ls := ls ++ [Line.beginLine 3 "3. Testing PDF loading..."]
    match w.loadPdf with
    | .error e =>
      { lines := ls ++ [Line.failureLine 3 ("   ❌ PDF loading error: " ++ e)],
        exitCode := 1, ops := [Op.loadDotenvOp, Op.loadPdfOp], envWrites := [],
        environFinal := w.environ1 }
    | .ok extractedData =>
    let ls := ls ++ [Line.successLine 3
      ("   ✅ Loaded " ++ toString extractedData.length ++ " PDF pages!")]
    -- Test 4: text chunking
    let ls := ls ++ [Line.beginLine 4 "4. Testing text chunking..."]
    match w.textSplit extractedData with
    | .error e =>
      { lines := ls ++ [Line.failureLine 4 ("   ❌ Text chunking error: " ++ e)],
        exitCode := 1, ops := [Op.loadDotenvOp, Op.loadPdfOp, Op.textSplitOp],
        envWrites := [], environFinal := w.environ1 }
    | .ok textChunks =>
    let ls := ls ++ [Line.successLine 4
      ("   ✅ Created " ++ toString textChunks.length ++ " text chunks!")]
    -- Test 5: embeddings
    let ls := ls ++ [Line.beginLine 5 "5. Testing embeddings..."]
    match w.embeddings with
    | .error e =>
      { lines := ls ++ [Line.failureLine 5 ("   ❌ Embeddings error: " ++ e)],
        exitCode := 1,
        ops := [Op.loadDotenvOp, Op.loadPdfOp, Op.textSplitOp, Op.embeddingsOp],
        envWrites := [], environFinal := w.environ1 }
    | .ok _ =>
    let ls := ls ++ [Line.successLine 5 "   ✅ Embeddings model loaded successfully!"]
    -- Test 6: Pinecone connection
    let ls := ls ++ [Line.beginLine 6 "6. Testing Pinecone connection..."]
    match w.pineconeCtor with
    | .error e =>
      { lines := ls ++ [Line.failureLine 6 ("   ❌ Pinecone connection error: " ++ e)],
        exitCode := 1,
        ops := [Op.loadDotenvOp, Op.loadPdfOp, Op.textSplitOp, Op.embeddingsOp,
                Op.pineconeCtorOp],
        envWrites := [], environFinal := w.environ1 }
    | .ok _ =>
    match w.listIndexes with
    | .error e =>
      { lines := ls ++ [Line.failureLine 6 ("   ❌ Pinecone connection error: " ++ e)],
        exitCode := 1,
        ops := [Op.loadDotenvOp, Op.loadPdfOp, Op.textSplitOp, Op.embeddingsOp,
                Op.pineconeCtorOp, Op.listIndexesOp],
        envWrites := [], environFinal := w.environ1 }
    | .ok names =>
    let ls := ls ++ [Line.successLine 6
      ("   ✅ Pinecone connected! Available indexes: " ++ toString names)]
    -- Test 7: Gemini connection
    let ls := ls ++ [Line.beginLine 7 "7. Testing Gemini AI connection..."]
    -- os.environ["GOOGLE_API_KEY"] = GOOGLE_API_KEY
    let environ2 : String → Option String :=
      fun k => if k = "GOOGLE_API_KEY" then googKey else w.environ1 k
    let ew := [("GOOGLE_API_KEY", googKey.getD "")]
    match w.geminiCtor with
    | .error e =>
      { lines := ls ++ [Line.failureLine 7 ("   ❌ Gemini AI error: " ++ e),
                        Line.tipLine 7 geminiTip],
        exitCode := 1,
        ops := [Op.loadDotenvOp, Op.loadPdfOp, Op.textSplitOp, Op.embeddingsOp,
                Op.pineconeCtorOp, Op.listIndexesOp, Op.geminiCtorOp],
        envWrites := ew, environFinal := environ2 }
    | .ok _ =>
    match w.geminiInvoke with
    | .error e =>
      { lines := ls ++ [Line.failureLine 7 ("   ❌ Gemini AI error: " ++ e),
                        Line.tipLine 7 geminiTip],
        exitCode := 1,
        ops := [Op.loadDotenvOp, Op.loadPdfOp, Op.textSplitOp, Op.embeddingsOp,
                Op.pineconeCtorOp, Op.listIndexesOp, Op.geminiCtorOp,
                Op.geminiInvokeOp],
        envWrites := ew, environFinal := environ2 }
    | .ok resp =>
    { lines := ls ++
        [Line.successLine 7 "   ✅ Gemini AI model initialized and tested successfully!",
         Line.extraLine 7 ("   Test response: " ++ resp.take 50 ++ "...")] ++
        finalBanner,
      exitCode := 0,
      ops := [Op.loadDotenvOp, Op.loadPdfOp, Op.textSplitOp, Op.embeddingsOp,
              Op.pineconeCtorOp, Op.listIndexesOp, Op.geminiCtorOp,
              Op.geminiInvokeOp],
      envWrites := ew, environFinal := environ2 }
  else
    { lines := ls ++ [Line.failureLine 2 "   ❌ API keys not found in .env file"],
      exitCode := 1, ops := [Op.loadDotenvOp], envWrites := [],
      environFinal := w.environ1 }

/-- Outcomes of every external call `check_pinecone.py` can make. -/
structure PineWorld where
  /-- the imports inside the try block -/
  importsOk : Except String Unit
  /-- `load_dotenv()` -/
  dotenvOk : Except String Unit
  environ0 : String → Option String
  environ1 : String → Option String
  /-- `Pinecone(api_key=PINECONE_API_KEY)` -/
  pineconeCtor : Except String Unit
  /-- `pc.list_indexes()`: the index names, or an exception -/
  listIndexes : Except String (List String)

/-- Shallow embedding of `check_pinecone.py`.  The whole body sits inside
one `try`/`except Exception`; the handler prints the error and falls
through (no `exit(1)`), so exceptions end the process with status 0.
Only the missing-key branch calls `exit(1)` (a `SystemExit`, which
`except Exception` does not catch). -/
def checkPinecone (cw : PineWorld) : RunResult :=
  let ls := [Line.header "🔍 Checking Pinecone Index..."]
  match cw.importsOk with
  | .error e =>
    { lines := ls ++ [Line.infoLine ("❌ Error: " ++ e)],
      exitCode := 0, ops := [], envWrites := [], environFinal := cw.environ0 }
  | .ok _ =>
  match cw.dotenvOk with
  | .error e =>
    { lines := ls ++ [Line.infoLine ("❌ Error: " ++ e)],
      exitCode := 0, ops := [Op.loadDotenvOp], envWrites := [],
      environFinal := cw.environ0 }
  | .ok _ =>
  let key := cw.environ1 "PINECONE_API_KEY"
  if truthy key then
    match cw.pineconeCtor with
    | .error e =>
      { lines := ls ++ [Line.infoLine ("❌ Error: " ++ e)],
        exitCode := 0, ops := [Op.loadDotenvOp, Op.pineconeCtorOp],
        envWrites := [], environFinal := cw.environ1 }
    | .ok _ =>
    match cw.listIndexes with
    | .error e =>
      { lines := ls ++ [Line.infoLine ("❌ Error: " ++ e)],
        exitCode := 0,
        ops := [Op.loadDotenvOp, Op.pineconeCtorOp, Op.listIndexesOp],
        envWrites := [], environFinal := cw.environ1 }
    | .ok names =>
    let ls := ls ++ [Line.infoLine ("📋 Available indexes: " ++ toString names)]
    if names.contains "medicalbot" then
      { lines := ls ++ [Line.infoLine "✅ \x27medicalbot\x27 index exists!",
                        Line.infoLine "🎉 Your Pinecone setup is ready!"],
        exitCode := 0,
        ops := [Op.loadDotenvOp, Op.pineconeCtorOp, Op.listIndexesOp],
        envWrites := [], environFinal := cw.environ1 }
    else
      { lines := ls ++ [Line.infoLine "⚠️  \x27medicalbot\x27 index not found.",
                        Line.infoLine "📝 Run: python store_index.py to create it"],
        exitCode := 0,
        ops := [Op.loadDotenvOp, Op.pineconeCtorOp, Op.listIndexesOp],
        envWrites := [], environFinal := cw.environ1 }
  else
    { lines := ls ++ [Line.infoLine "❌ PINECONE_API_KEY not found in .env file"],
      exitCode := 1, ops := [Op.loadDotenvOp], envWrites := [],
      environFinal := cw.environ1 }

/-! ## Analysis helpers -/

/-- The 1-based index of the first check of `test_setup.py` that fails in
world `w`, or `none` when every check succeeds. -/
def failStage (w : World) : Option Nat :=
  match w.importsOk with
  | .error _ => some 1
  | .ok _ =>
  match w.dotenvOk with
  | .error _ => some 2
  | .ok _ =>
  if truthy (w.environ1 "PINECONE_API_KEY") && truthy (w.environ1 "GOOGLE_API_KEY") then
    match w.loadPdf with
    | .error _ => some 3
    | .ok extractedData =>
    match w.textSplit extractedData with
    | .error _ => some 4
    | .ok _ =>
    match w.embeddings with
    | .error _ => some 5
    | .ok _ =>
    match w.pineconeCtor with
    | .error _ => some 6
    | .ok _ =>
    match w.listIndexes with
    | .error _ => some 6
    | .ok _ =>
    match w.geminiCtor with
    | .error _ => some 7
    | .ok _ =>
    match w.geminiInvoke with
    | .error _ => some 7
    | .ok _ => none
  else some 2

/-- The index of the last check of `test_setup.py` that starts in world
`w` (7 when all checks succeed). -/
def reached (w : World) : Nat := (failStage w).getD 7

/-- Which check of `test_setup.py` invokes each collaborator operation. -/
def opStage : Op → Nat
  | .loadDotenvOp => 2
  | .loadPdfOp => 3
  | .textSplitOp => 4
  | .embeddingsOp => 5
  | .pineconeCtorOp => 6
  | .listIndexesOp => 6
  | .createIndexOp => 6
  | .geminiCtorOp => 7
  | .geminiInvokeOp => 7

def isBeginLine : Line → Bool
  | .beginLine _ _ => true
  | _ => false

def isSuccessLine : Line → Bool
  | .successLine _ _ => true
  | _ => false

def isFailureLine : Line → Bool
  | .failureLine _ _ => true
  | _ => false

/-- Number of "begin" lines in an output. -/
def countBegins (ls : List Line) : Nat := (ls.filter isBeginLine).length

/-- Number of "success" lines in an output. -/
def countSuccesses (ls : List Line) : Nat := (ls.filter isSuccessLine).length

/-- Number of "failure" lines in an output. -/
def countFailures (ls : List Line) : Nat := (ls.filter isFailureLine).length

/-- The check indices of the "begin" lines of an output, in print order. -/
def beginIndices (ls : List Line) : List Nat :=
  ls.filterMap fun l => match l with | .beginLine k _ => some k | _ => none

/-- Whether the last line of an output is a failure line. -/
def lastIsFailureLine (ls : List Line) : Bool :=
  match ls.getLast? with
  | some l => isFailureLine l
  | none => false

/-- The lines of check `k` printed after its action was invoked: its
success or failure report plus any additional line printed inside the
check's block (the Gemini response preview, the Gemini tip). -/
def isPostLineOf (k : Nat) : Line → Bool
  | .successLine j _ => j == k
  | .failureLine j _ => j == k
  | .extraLine j _ => j == k
  | .tipLine j _ => j == k
  | _ => false

/-- Number of post-invocation lines of check `k` in an output. -/
def countPost (k : Nat) (ls : List Line) : Nat := (ls.filter (isPostLineOf k)).length

/-- Number of "begin" lines of check `k` in an output. -/
def countBeginOf (k : Nat) (ls : List Line) : Nat :=
  (ls.filter fun l => match l with | .beginLine j _ => j == k | _ => false).length

/-- Whether `check_pinecone.py` takes its `exit(1)` branch: imports and
`load_dotenv` succeed but the key retrieved from the environment is falsy. -/
def pineKeyMissing (cw : PineWorld) : Bool :=
  match cw.importsOk, cw.dotenvOk with
  | .ok _, .ok _ => !truthy (cw.environ1 "PINECONE_API_KEY")
  | _, _ => false

/-! ## Concrete worlds used as witnesses and counterexamples -/

/-- An environment holding both API keys. -/
def envBoth : String → Option String :=
  fun k => if k = "PINECONE_API_KEY" then some "pk-123"
           else if k = "GOOGLE_API_KEY" then some "gk-456" else none

/-- An environment missing the vector-database key. -/
def envNoPine : String → Option String :=
  fun k => if k = "GOOGLE_API_KEY" then some "gk-456" else none

/-- An environment where the vector-database key is set to the empty string. -/
def envPineEmpty : String → Option String :=
  fun k => if k = "PINECONE_API_KEY" then some ""
           else if k = "GOOGLE_API_KEY" then some "gk-456" else none

/-- A world where every external call of `test_setup.py` succeeds. -/
def wAllOk : World :=
  { importsOk := .ok (), dotenvOk := .ok (), environ0 := fun _ => none,
    environ1 := envBoth,
    loadPdf := .ok ["page one", "page two"],
    textSplit := fun ps => .ok (ps ++ ps),
    embeddings := .ok (), pineconeCtor := .ok (),
    listIndexes := .ok ["medicalbot"], geminiCtor := .ok (),
    geminiInvoke := .ok "Hello! I am ready." }

/-- A world where PDF loading raises. -/
def wPdfErr : World := { wAllOk with loadPdf := .error "Data directory not found" }

/-- A world where the Gemini call raises. -/
def wGemErr : World := { wAllOk with geminiInvoke := .error "invalid api key" }

/-- A world where the vector-database key is absent. -/
def wNoPine : World := { wAllOk with environ1 := envNoPine }

/-- A world where the vector-database key is the empty string. -/
def wPineEmpty : World := { wAllOk with environ1 := envPineEmpty }

/-- A `check_pinecone.py` world where everything succeeds and the
`medicalbot` index exists. -/
def cwOk : PineWorld :=
  { importsOk := .ok (), dotenvOk := .ok (), environ0 := fun _ => none,
    environ1 := envBoth, pineconeCtor := .ok (),
    listIndexes := .ok ["medicalbot", "other"] }

/-- A `check_pinecone.py` world where the index listing succeeds but the
`medicalbot` index does not exist. -/
def cwNoIndex : PineWorld := { cwOk with listIndexes := .ok ["other"] }

/-- A `check_pinecone.py` world where `list_indexes` raises. -/
def cwListErr : PineWorld := { cwOk with listIndexes := .error "connection refused" }

/-- A `check_pinecone.py` world where the key is absent. -/
def cwNoKey : PineWorld := { cwOk with environ1 := envNoPine }

/-- A `check_pinecone.py` world where the key is the empty string. -/
def cwPineEmpty : PineWorld := { cwOk with environ1 := envPineEmpty }

/-- `env` with the variable `kname` removed (used to compare a run whose
key is the empty string against a run whose key is absent). -/
def removeKey (env : String → Option String) (kname : String) : String → Option String :=
  fun s => if s = kname then none else env s

/-! ## Helper lemmas -/

/-- `test_setup.py` exits 0 exactly when no check fails, else 1. -/
theorem testSetup_exitCode (w : World) :
    (testSetup w).exitCode = if failStage w = none then 0 else 1 := by
  obtain ⟨imp, dot, e0, e1, lp, ts, em, pc, li, gc, gi⟩ := w
  cases imp with
  | error e => simp [testSetup, failStage]
  | ok u =>
  cases dot with
  | error e => simp [testSetup, failStage]
  | ok u =>
  cases h : truthy (e1 "PINECONE_API_KEY") && truthy (e1 "GOOGLE_API_KEY") with
  | false => simp [testSetup, failStage, h]
  | true =>
  cases lp with
  | error e => simp [testSetup, failStage, h]
  | ok pages =>
  cases hts : ts pages with
  | error e => simp [testSetup, failStage, h, hts]
  | ok chunks =>
  cases em with
  | error e => simp [testSetup, failStage, h, hts]
  | ok u2 =>
  cases pc with
  | error e => simp [testSetup, failStage, h, hts]
  | ok u3 =>
  cases li with
  | error e => simp [testSetup, failStage, h, hts]
  | ok names =>
  cases gc with
  | error e => simp [testSetup, failStage, h, hts]
  | ok u4 =>
  cases gi with
  | error e => simp [testSetup, failStage, h, hts]
  | ok resp => simp [testSetup, failStage, h, hts]

/-- `check_pinecone.py` exits 1 exactly on the missing-key branch, else 0:
every caught exception ends the process with status 0. -/
theorem checkPinecone_exitCode (cw : PineWorld) :
    (checkPinecone cw).exitCode = if pineKeyMissing cw then 1 else 0 := by
  obtain ⟨imp, dot, e0, e1, pc, li⟩ := cw
  cases imp with
  | error e => simp [checkPinecone, pineKeyMissing]
  | ok u =>
  cases dot with
  | error e => simp [checkPinecone, pineKeyMissing]
  | ok u =>
  cases h : truthy (e1 "PINECONE_API_KEY") with
  | false => simp [checkPinecone, pineKeyMissing, h]
  | true =>
  cases pc with
  | error e => simp [checkPinecone, pineKeyMissing, h]
  | ok u2 =>
  cases li with
  | error e => simp [checkPinecone, pineKeyMissing, h]
  | ok names =>
    simp [checkPinecone, pineKeyMissing, h, apply_ite RunResult.exitCode]

/-! ## Claim theorems -/

/-- C1 counterexample: an exception raised while listing indexes in
`check_pinecone.py` is caught by the `except Exception` handler, which
prints the error and falls through — the process exits with status 0,
not 1 as the claim states. -/
theorem C1_counterexample :
    (checkPinecone cwListErr).lines =
      [Line.header "🔍 Checking Pinecone Index...",
       Line.infoLine "❌ Error: connection refused"] ∧
    (checkPinecone cwListErr).exitCode = 0 := ⟨rfl, rfl⟩

/-- C1 (amended): `test_setup.py` exits 0 when all checks succeed and 1
when any check fails; `check_pinecone.py` exits 1 only on its
missing-API-key branch, while an exception caught by its handler (for
example while listing indexes) ends the process with exit status 0. -/
theorem C1_exit_status (w : World) (cw : PineWorld) :
    ((testSetup w).exitCode = if failStage w = none then 0 else 1) ∧
    ((checkPinecone cw).exitCode = if pineKeyMissing cw then 1 else 0) :=
  ⟨testSetup_exitCode w, checkPinecone_exitCode cw⟩

/-- C2: `test_setup.py` is fail-fast — when check `k` fails and no earlier
check failed, no later check starts (every "begin" line belongs to a
check of index at most `k`) and no later check's collaborator action is
invoked (every invoked operation belongs to a check of index at most
`k`). -/
theorem C2_fail_fast (w : World) (k : Nat) (hk : failStage w = some k) :
    (∀ j ∈ beginIndices (testSetup w).lines, j ≤ k) ∧
    (∀ o ∈ (testSetup w).ops, opStage o ≤ k) := by
  obtain ⟨imp, dot, e0, e1, lp, ts, em, pc, li, gc, gi⟩ := w
  cases imp with
  | error e =>
    simp [failStage] at hk
    subst hk
    exact ⟨by simp [testSetup, beginIndices], by simp [testSetup]⟩
  | ok u =>
  cases dot with
  | error e =>
    simp [failStage] at hk
    subst hk
    exact ⟨by simp [testSetup, beginIndices], by simp [testSetup, opStage]⟩
  | ok u =>
  cases h : truthy (e1 "PINECONE_API_KEY") && truthy (e1 "GOOGLE_API_KEY") with
  | false =>
    simp [failStage, h] at hk
    subst hk
    exact ⟨by simp [testSetup, beginIndices, h], by simp [testSetup, h, opStage]⟩
  | true =>
  cases lp with
  | error e =>
    simp [failStage, h] at hk
    subst hk
    refine ⟨?_, ?_⟩ <;> simp [testSetup, beginIndices, h, opStage]
  | ok pages =>
  cases hts : ts pages with
  | error e =>
    simp [failStage, h, hts] at hk
    subst hk
    refine ⟨?_, ?_⟩ <;> simp [testSetup, beginIndices, h, hts, opStage]
  | ok chunks =>
  cases em with
  | error e =>
    simp [failStage, h, hts] at hk
    subst hk
    refine ⟨?_, ?_⟩ <;> simp [testSetup, beginIndices, h, hts, opStage]
  | ok u2 =>
  cases pc with
  | error e =>
    simp [failStage, h, hts] at hk
    subst hk
    refine ⟨?_, ?_⟩ <;> simp [testSetup, beginIndices, h, hts, opStage]
  | ok u3 =>
  cases li with
  | error e =>
    simp [failStage, h, hts] at hk
    subst hk
    refine ⟨?_, ?_⟩ <;> simp [testSetup, beginIndices, h, hts, opStage]
  | ok names =>
  cases gc with
  | error e =>
    simp [failStage, h, hts] at hk
    subst hk
    refine ⟨?_, ?_⟩ <;> simp [testSetup, beginIndices, h, hts, opStage]
  | ok u4 =>
  cases gi with
  | error e =>
    simp [failStage, h, hts] at hk
    subst hk
    refine ⟨?_, ?_⟩ <;> simp [testSetup, beginIndices, h, hts, opStage]
  | ok resp =>
    simp [failStage, h, hts] at hk

/-- C2 witness: in the world where PDF loading fails at check 3, every
begin line and every invoked operation belongs to a check of index at
most 3. -/
theorem C2_witness :
    (∀ j ∈ beginIndices (testSetup wPdfErr).lines, j ≤ 3) ∧
    (∀ o ∈ (testSetup wPdfErr).ops, opStage o ≤ 3) :=
  C2_fail_fast wPdfErr 3 (by decide)

/-- Execution path of `test_setup.py` when the imports raise. -/
theorem testSetup_run1 (w : World) (e : String) (h1 : w.importsOk = .error e) :
    testSetup w =
      { lines := [Line.header "🔍 Testing Medical Chatbot Setup...", Line.header eqRule,
                  Line.beginLine 1 "1. Testing imports...",
                  Line.failureLine 1 ("   ❌ Import error: " ++ e)],
        exitCode := 1, ops := [], envWrites := [], environFinal := w.environ0 } := by
  simp [testSetup, h1]

/-- Execution path of `test_setup.py` when `load_dotenv()` raises. -/
theorem testSetup_run2dot (w : World) (e : String)
    (h1 : w.importsOk = .ok ()) (h2 : w.dotenvOk = .error e) :
    testSetup w =
      { lines := [Line.header "🔍 Testing Medical Chatbot Setup...", Line.header eqRule,
                  Line.beginLine 1 "1. Testing imports...",
                  Line.successLine 1 "   ✅ All imports successful!",
                  Line.beginLine 2 "2. Testing environment variables...",
                  Line.failureLine 2 ("   ❌ Environment error: " ++ e)],
        exitCode := 1, ops := [Op.loadDotenvOp], envWrites := [],
        environFinal := w.environ0 } := by
  simp [testSetup, h1, h2]

/-- Execution path of `test_setup.py` when an API key is falsy. -/
theorem testSetup_run2key (w : World)
    (h1 : w.importsOk = .ok ()) (h2 : w.dotenvOk = .ok ())
    (h3 : (truthy (w.environ1 "PINECONE_API_KEY") &&
           truthy (w.environ1 "GOOGLE_API_KEY")) = false) :
    testSetup w =
      { lines := [Line.header "🔍 Testing Medical Chatbot Setup...", Line.header eqRule,
                  Line.beginLine 1 "1. Testing imports...",
                  Line.successLine 1 "   ✅ All imports successful!",
                  Line.beginLine 2 "2. Testing environment variables...",
                  Line.failureLine 2 "   ❌ API keys not found in .env file"],
        exitCode := 1, ops := [Op.loadDotenvOp], envWrites := [],
        environFinal := w.environ1 } := by
  simp [testSetup, h1, h2, h3]

/-- Execution path of `test_setup.py` when PDF loading raises. -/
theorem testSetup_run3 (w : World) (e : String)
    (h1 : w.importsOk = .ok ()) (h2 : w.dotenvOk = .ok ())
    (h3 : (truthy (w.environ1 "PINECONE_API_KEY") &&
           truthy (w.environ1 "GOOGLE_API_KEY")) = true)
    (h4 : w.loadPdf = .error e) :
    testSetup w =
      { lines := [Line.header "🔍 Testing Medical Chatbot Setup...", Line.header eqRule,
                  Line.beginLine 1 "1. Testing imports...",
                  Line.successLine 1 "   ✅ All imports successful!",
                  Line.beginLine 2 "2. Testing environment variables...",
                  Line.successLine 2 "   ✅ API keys loaded successfully!",
                  Line.beginLine 3 "3. Testing PDF loading...",
                  Line.failureLine 3 ("   ❌ PDF loading error: " ++ e)],
        exitCode := 1, ops := [Op.loadDotenvOp, Op.loadPdfOp], envWrites := [],
        environFinal := w.environ1 } := by
  simp [testSetup, h1, h2, h3, h4]

/-- Execution path of `test_setup.py` when text chunking raises. -/
theorem testSetup_run4 (w : World) (pages : List String) (e : String)
    (h1 : w.importsOk = .ok ()) (h2 : w.dotenvOk = .ok ())
    (h3 : (truthy (w.environ1 "PINECONE_API_KEY") &&
           truthy (w.environ1 "GOOGLE_API_KEY")) = true)
    (h4 : w.loadPdf = .ok pages) (h5 : w.textSplit pages = .error e) :
    testSetup w =
      { lines := [Line.header "🔍 Testing Medical Chatbot Setup...", Line.header eqRule,
                  Line.beginLine 1 "1. Testing imports...",
                  Line.successLine 1 "   ✅ All imports successful!",
                  Line.beginLine 2 "2. Testing environment variables...",
                  Line.successLine 2 "   ✅ API keys loaded successfully!",
                  Line.beginLine 3 "3. Testing PDF loading...",
                  Line.successLine 3 ("   ✅ Loaded " ++ toString pages.length ++ " PDF pages!"),
                  Line.beginLine 4 "4. Testing text chunking...",
                  Line.failureLine 4 ("   ❌ Text chunking error: " ++ e)],
        exitCode := 1, ops := [Op.loadDotenvOp, Op.loadPdfOp, Op.textSplitOp],
        envWrites := [], environFinal := w.environ1 } := by
  simp [testSetup, h1, h2, h3, h4, h5]

/-- Execution path of `test_setup.py` when the embedding load raises. -/
theorem testSetup_run5 (w : World) (pages chunks : List String) (e : String)
    (h1 : w.importsOk = .ok ()) (h2 : w.dotenvOk = .ok ())
    (h3 : (truthy (w.environ1 "PINECONE_API_KEY") &&
           truthy (w.environ1 "GOOGLE_API_KEY")) = true)
    (h4 : w.loadPdf = .ok pages) (h5 : w.textSplit pages = .ok chunks)
    (h6 : w.embeddings = .error e) :
    testSetup w =
      { lines := [Line.header "🔍 Testing Medical Chatbot Setup...", Line.header eqRule,
                  Line.beginLine 1 "1. Testing imports...",
                  Line.successLine 1 "   ✅ All imports successful!",
                  Line.beginLine 2 "2. Testing environment variables...",
                  Line.successLine 2 "   ✅ API keys loaded successfully!",
                  Line.beginLine 3 "3. Testing PDF loading...",
                  Line.successLine 3 ("   ✅ Loaded " ++ toString pages.length ++ " PDF pages!"),
                  Line.beginLine 4 "4. Testing text chunking...",
                  Line.successLine 4 ("   ✅ Created " ++ toString chunks.length ++ " text chunks!"),
                  Line.beginLine 5 "5. Testing embeddings...",
                  Line.failureLine 5 ("   ❌ Embeddings error: " ++ e)],
        exitCode := 1,
        ops := [Op.loadDotenvOp, Op.loadPdfOp, Op.textSplitOp, Op.embeddingsOp],
        envWrites := [], environFinal := w.environ1 } := by
  simp [testSetup, h1, h2, h3, h4, h5, h6]

/-- Execution path of `test_setup.py` when the Pinecone constructor raises. -/
theorem testSetup_run6ctor (w : World) (pages chunks : List String) (e : String)
    (h1 : w.importsOk = .ok ()) (h2 : w.dotenvOk = .ok ())
    (h3 : (truthy (w.environ1 "PINECONE_API_KEY") &&
           truthy (w.environ1 "GOOGLE_API_KEY")) = true)
    (h4 : w.loadPdf = .ok pages) (h5 : w.textSplit pages = .ok chunks)
    (h6 : w.embeddings = .ok ()) (h7 : w.pineconeCtor = .error e) :
    testSetup w =
      { lines := [Line.header "🔍 Testing Medical Chatbot Setup...", Line.header eqRule,
                  Line.beginLine 1 "1. Testing imports...",
                  Line.successLine 1 "   ✅ All imports successful!",
                  Line.beginLine 2 "2. Testing environment variables...",
                  Line.successLine 2 "   ✅ API keys loaded successfully!",
                  Line.beginLine 3 "3. Testing PDF loading...",
                  Line.successLine 3 ("   ✅ Loaded " ++ toString pages.length ++ " PDF pages!"),
                  Line.beginLine 4 "4. Testing text chunking...",
                  Line.successLine 4 ("   ✅ Created " ++ toString chunks.length ++ " text chunks!"),
                  Line.beginLine 5 "5. Testing embeddings...",
                  Line.successLine 5 "   ✅ Embeddings model loaded successfully!",
                  Line.beginLine 6 "6. Testing Pinecone connection...",
                  Line.failureLine 6 ("   ❌ Pinecone connection error: " ++ e)],
        exitCode := 1,
        ops := [Op.loadDotenvOp, Op.loadPdfOp, Op.textSplitOp, Op.embeddingsOp,
                Op.pineconeCtorOp],
        envWrites := [], environFinal := w.environ1 } := by
  simp [testSetup, h1, h2, h3, h4, h5, h6, h7]

/-- Execution path of `test_setup.py` when `list_indexes` raises. -/
theorem testSetup_run6list (w : World) (pages chunks : List String) (e : String)
    (h1 : w.importsOk = .ok ()) (h2 : w.dotenvOk = .ok ())
    (h3 : (truthy (w.environ1 "PINECONE_API_KEY") &&
           truthy (w.environ1 "GOOGLE_API_KEY")) = true)
    (h4 : w.loadPdf = .ok pages) (h5 : w.textSplit pages = .ok chunks)
    (h6 : w.embeddings = .ok ()) (h7 : w.pineconeCtor = .ok ())
    (h8 : w.listIndexes = .error e) :
    testSetup w =
      { lines := [Line.header "🔍 Testing Medical Chatbot Setup...", Line.header eqRule,
                  Line.beginLine 1 "1. Testing imports...",
                  Line.successLine 1 "   ✅ All imports successful!",
                  Line.beginLine 2 "2. Testing environment variables...",
                  Line.successLine 2 "   ✅ API keys loaded successfully!",
                  Line.beginLine 3 "3. Testing PDF loading...",
                  Line.successLine 3 ("   ✅ Loaded " ++ toString pages.length ++ " PDF pages!"),
                  Line.beginLine 4 "4. Testing text chunking...",
                  Line.successLine 4 ("   ✅ Created " ++ toString chunks.length ++ " text chunks!"),
                  Line.beginLine 5 "5. Testing embeddings...",
                  Line.successLine 5 "   ✅ Embeddings model loaded successfully!",
                  Line.beginLine 6 "6. Testing Pinecone connection...",
                  Line.failureLine 6 ("   ❌ Pinecone connection error: " ++ e)],
        exitCode := 1,
        ops := [Op.loadDotenvOp, Op.loadPdfOp, Op.textSplitOp, Op.embeddingsOp,
                Op.pineconeCtorOp, Op.listIndexesOp],
        envWrites := [], environFinal := w.environ1 } := by
  simp [testSetup, h1, h2, h3, h4, h5, h6, h7, h8]

/-- Execution path of `test_setup.py` when the Gemini constructor raises. -/
theorem testSetup_run7ctor (w : World) (pages chunks names : List String) (e : String)
    (h1 : w.importsOk = .ok ()) (h2 : w.dotenvOk = .ok ())
    (h3 : (truthy (w.environ1 "PINECONE_API_KEY") &&
           truthy (w.environ1 "GOOGLE_API_KEY")) = true)
    (h4 : w.loadPdf = .ok pages) (h5 : w.textSplit pages = .ok chunks)
    (h6 : w.embeddings = .ok ()) (h7 : w.pineconeCtor = .ok ())
    (h8 : w.listIndexes = .ok names) (h9 : w.geminiCtor = .error e) :
    testSetup w =
      { lines := [Line.header "🔍 Testing Medical Chatbot Setup...", Line.header eqRule,
                  Line.beginLine 1 "1. Testing imports...",
                  Line.successLine 1 "   ✅ All imports successful!",
                  Line.beginLine 2 "2. Testing environment variables...",
                  Line.successLine 2 "   ✅ API keys loaded successfully!",
                  Line.beginLine 3 "3. Testing PDF loading...",
                  Line.successLine 3 ("   ✅ Loaded " ++ toString pages.length ++ " PDF pages!"),
                  Line.beginLine 4 "4. Testing text chunking...",
                  Line.successLine 4 ("   ✅ Created " ++ toString chunks.length ++ " text chunks!"),
                  Line.beginLine 5 "5. Testing embeddings...",
                  Line.successLine 5 "   ✅ Embeddings model loaded successfully!",
                  Line.beginLine 6 "6. Testing Pinecone connection...",
                  Line.successLine 6 ("   ✅ Pinecone connected! Available indexes: " ++ toString names),
                  Line.beginLine 7 "7. Testing Gemini AI connection...",
                  Line.failureLine 7 ("   ❌ Gemini AI error: " ++ e),
                  Line.tipLine 7 geminiTip],
        exitCode := 1,
        ops := [Op.loadDotenvOp, Op.loadPdfOp, Op.textSplitOp, Op.embeddingsOp,
                Op.pineconeCtorOp, Op.listIndexesOp, Op.geminiCtorOp],
        envWrites := [("GOOGLE_API_KEY", (w.environ1 "GOOGLE_API_KEY").getD "")],
        environFinal := fun k => if k = "GOOGLE_API_KEY" then w.environ1 "GOOGLE_API_KEY"
                                 else w.environ1 k } := by
  simp [testSetup, h1, h2, h3, h4, h5, h6, h7, h8, h9]

/-- Execution path of `test_setup.py` when `llm.invoke` raises. -/
theorem testSetup_run7inv (w : World) (pages chunks names : List String) (e : String)
    (h1 : w.importsOk = .ok ()) (h2 : w.dotenvOk = .ok ())
    (h3 : (truthy (w.environ1 "PINECONE_API_KEY") &&
           truthy (w.environ1 "GOOGLE_API_KEY")) = true)
    (h4 : w.loadPdf = .ok pages) (h5 : w.textSplit pages = .ok chunks)
    (h6 : w.embeddings = .ok ()) (h7 : w.pineconeCtor = .ok ())
    (h8 : w.listIndexes = .ok names) (h9 : w.geminiCtor = .ok ())
    (h10 : w.geminiInvoke = .error e) :
    testSetup w =
      { lines := [Line.header "🔍 Testing Medical Chatbot Setup...", Line.header eqRule,
                  Line.beginLine 1 "1. Testing imports...",
                  Line.successLine 1 "   ✅ All imports successful!",
                  Line.beginLine 2 "2. Testing environment variables...",
                  Line.successLine 2 "   ✅ API keys loaded successfully!",
                  Line.beginLine 3 "3. Testing PDF loading...",
                  Line.successLine 3 ("   ✅ Loaded " ++ toString pages.length ++ " PDF pages!"),
                  Line.beginLine 4 "4. Testing text chunking...",
                  Line.successLine 4 ("   ✅ Created " ++ toString chunks.length ++ " text chunks!"),
                  Line.beginLine 5 "5. Testing embeddings...",
                  Line.successLine 5 "   ✅ Embeddings model loaded successfully!",
                  Line.beginLine 6 "6. Testing Pinecone connection...",
                  Line.successLine 6 ("   ✅ Pinecone connected! Available indexes: " ++ toString names),
                  Line.beginLine 7 "7. Testing Gemini AI connection...",
                  Line.failureLine 7 ("   ❌ Gemini AI error: " ++ e),
                  Line.tipLine 7 geminiTip],
        exitCode := 1,
        ops := [Op.loadDotenvOp, Op.loadPdfOp, Op.textSplitOp, Op.embeddingsOp,
                Op.pineconeCtorOp, Op.listIndexesOp, Op.geminiCtorOp, Op.geminiInvokeOp],
        envWrites := [("GOOGLE_API_KEY", (w.environ1 "GOOGLE_API_KEY").getD "")],
        environFinal := fun k => if k = "GOOGLE_API_KEY" then w.environ1 "GOOGLE_API_KEY"
                                 else w.environ1 k } := by
  simp [testSetup, h1, h2, h3, h4, h5, h6, h7, h8, h9, h10]

/-- Execution path of `test_setup.py` when every check succeeds. -/
theorem testSetup_run7ok (w : World) (pages chunks names : List String) (resp : String)
    (h1 : w.importsOk = .ok ()) (h2 : w.dotenvOk = .ok ())
    (h3 : (truthy (w.environ1 "PINECONE_API_KEY") &&
           truthy (w.environ1 "GOOGLE_API_KEY")) = true)
    (h4 : w.loadPdf = .ok pages) (h5 : w.textSplit pages = .ok chunks)
    (h6 : w.embeddings = .ok ()) (h7 : w.pineconeCtor = .ok ())
    (h8 : w.listIndexes = .ok names) (h9 : w.geminiCtor = .ok ())
    (h10 : w.geminiInvoke = .ok resp) :
    testSetup w =
      { lines := [Line.header "🔍 Testing Medical Chatbot Setup...", Line.header eqRule,
                  Line.beginLine 1 "1. Testing imports...",
                  Line.successLine 1 "   ✅ All imports successful!",
                  Line.beginLine 2 "2. Testing environment variables...",
                  Line.successLine 2 "   ✅ API keys loaded successfully!",
                  Line.beginLine 3 "3. Testing PDF loading...",
                  Line.successLine 3 ("   ✅ Loaded " ++ toString pages.length ++ " PDF pages!"),
                  Line.beginLine 4 "4. Testing text chunking...",
                  Line.successLine 4 ("   ✅ Created " ++ toString chunks.length ++ " text chunks!"),
                  Line.beginLine 5 "5. Testing embeddings...",
                  Line.successLine 5 "   ✅ Embeddings model loaded successfully!",
                  Line.beginLine 6 "6. Testing Pinecone connection...",
                  Line.successLine 6 ("   ✅ Pinecone connected! Available indexes: " ++ toString names),
                  Line.beginLine 7 "7. Testing Gemini AI connection...",
                  Line.successLine 7 "   ✅ Gemini AI model initialized and tested successfully!",
                  Line.extraLine 7 ("   Test response: " ++ resp.take 50 ++ "...")] ++ finalBanner,
        exitCode := 0,
        ops := [Op.loadDotenvOp, Op.loadPdfOp, Op.textSplitOp, Op.embeddingsOp,
                Op.pineconeCtorOp, Op.listIndexesOp, Op.geminiCtorOp, Op.geminiInvokeOp],
        envWrites := [("GOOGLE_API_KEY", (w.environ1 "GOOGLE_API_KEY").getD "")],
        environFinal := fun k => if k = "GOOGLE_API_KEY" then w.environ1 "GOOGLE_API_KEY"
                                 else w.environ1 k } := by
  simp [testSetup, h1, h2, h3, h4, h5, h6, h7, h8, h9, h10]

/-- C3 counterexample: when check 7 (Gemini) fails, the failure line is
not the last line printed — the 💡 tip line follows it, contradicting the
claim that the failure report is always the last line. -/
theorem C3_counterexample :
    failStage wGemErr = some 7 ∧
    (testSetup wGemErr).lines.getLast? = some (Line.tipLine 7 geminiTip) ∧
    lastIsFailureLine (testSetup wGemErr).lines = false := ⟨rfl, rfl, rfl⟩

/-- C3 (amended): when check `k` fails and no earlier check failed, the
output holds exactly `k` begin lines, `k-1` success lines and one failure
line; for `k ≤ 6` the failure line is the last line printed, while for
`k = 7` (the Gemini check) the fixed 💡 tip line follows it and the
failure line is the last line before that tip. -/
theorem C3_line_counts (w : World) (k : Nat) (hk : failStage w = some k) :
    countBegins (testSetup w).lines = k ∧
    countSuccesses (testSetup w).lines = k - 1 ∧
    countFailures (testSetup w).lines = 1 ∧
    (k ≠ 7 → lastIsFailureLine (testSetup w).lines = true) ∧
    (k = 7 → (testSetup w).lines.getLast? = some (Line.tipLine 7 geminiTip) ∧
             lastIsFailureLine (testSetup w).lines.dropLast = true) := by
  obtain ⟨imp, dot, e0, e1, lp, ts, em, pc, li, gc, gi⟩ := w
  cases imp with
  | error e =>
    simp [failStage] at hk
    subst hk
    rw [testSetup_run1 _ e rfl]
    exact ⟨rfl, rfl, rfl, fun _ => rfl, fun hc => by omega⟩
  | ok u =>
  cases u
  cases dot with
  | error e =>
    simp [failStage] at hk
    subst hk
    rw [testSetup_run2dot _ e rfl rfl]
    exact ⟨rfl, rfl, rfl, fun _ => rfl, fun hc => by omega⟩
  | ok u =>
  cases u
  cases h : truthy (e1 "PINECONE_API_KEY") && truthy (e1 "GOOGLE_API_KEY") with
  | false =>
    simp [failStage, h] at hk
    subst hk
    rw [testSetup_run2key _ rfl rfl h]
    exact ⟨rfl, rfl, rfl, fun _ => rfl, fun hc => by omega⟩
  | true =>
  cases lp with
  | error e =>
    simp [failStage, h] at hk
    subst hk
    rw [testSetup_run3 _ e rfl rfl h rfl]
    exact ⟨rfl, rfl, rfl, fun _ => rfl, fun hc => by omega⟩
  | ok pages =>
  cases hts : ts pages with
  | error e =>
    simp [failStage, h, hts] at hk
    subst hk
    rw [testSetup_run4 _ pages e rfl rfl h rfl hts]
    exact ⟨rfl, rfl, rfl, fun _ => rfl, fun hc => by omega⟩
  | ok chunks =>
  cases em with
  | error e =>
    simp [failStage, h, hts] at hk
    subst hk
    rw [testSetup_run5 _ pages chunks e rfl rfl h rfl hts rfl]
    exact ⟨rfl, rfl, rfl, fun _ => rfl, fun hc => by omega⟩
  | ok u2 =>
  cases u2
  cases pc with
  | error e =>
    simp [failStage, h, hts] at hk
    subst hk
    rw [testSetup_run6ctor _ pages chunks e rfl rfl h rfl hts rfl rfl]
    exact ⟨rfl, rfl, rfl, fun _ => rfl, fun hc => by omega⟩
  | ok u3 =>
  cases u3
  cases li with
  | error e =>
    simp [failStage, h, hts] at hk
    subst hk
    rw [testSetup_run6list _ pages chunks e rfl rfl h rfl hts rfl rfl rfl]
    exact ⟨rfl, rfl, rfl, fun _ => rfl, fun hc => by omega⟩
  | ok names =>
  cases gc with
  | error e =>
    simp [failStage, h, hts] at hk
    subst hk
    rw [testSetup_run7ctor _ pages chunks names e rfl rfl h rfl hts rfl rfl rfl rfl]
    exact ⟨rfl, rfl, rfl, fun hc => absurd rfl hc, fun _ => ⟨rfl, rfl⟩⟩
  | ok u4 =>
  cases u4
  cases gi with
  | error e =>
    simp [failStage, h, hts] at hk
    subst hk
    rw [testSetup_run7inv _ pages chunks names e rfl rfl h rfl hts rfl rfl rfl rfl rfl]
    exact ⟨rfl, rfl, rfl, fun hc => absurd rfl hc, fun _ => ⟨rfl, rfl⟩⟩
  | ok resp =>
    simp [failStage, h, hts] at hk

/-- C3 witness: in the world where check 3 (PDF loading) fails, the
output has 3 begin lines, 2 success lines, one failure line, and the
failure line is the last line printed. -/
theorem C3_witness :
    countBegins (testSetup wPdfErr).lines = 3 ∧
    countSuccesses (testSetup wPdfErr).lines = 3 - 1 ∧
    countFailures (testSetup wPdfErr).lines = 1 ∧
    (3 ≠ 7 → lastIsFailureLine (testSetup wPdfErr).lines = true) ∧
    (3 = 7 → (testSetup wPdfErr).lines.getLast? = some (Line.tipLine 7 geminiTip) ∧
             lastIsFailureLine (testSetup wPdfErr).lines.dropLast = true) :=
  C3_line_counts wPdfErr 3 (by decide)

/-- Execution path of `check_pinecone.py` when the key is falsy: the
`exit(1)` raises `SystemExit`, which the `except Exception` handler does
not catch. -/
theorem checkPinecone_noKey (cw : PineWorld)
    (h1 : cw.importsOk = .ok ()) (h2 : cw.dotenvOk = .ok ())
    (h3 : truthy (cw.environ1 "PINECONE_API_KEY") = false) :
    checkPinecone cw =
      { lines := [Line.header "🔍 Checking Pinecone Index...",
                  Line.infoLine "❌ PINECONE_API_KEY not found in .env file"],
        exitCode := 1, ops := [Op.loadDotenvOp], envWrites := [],
        environFinal := cw.environ1 } := by
  simp [checkPinecone, h1, h2, h3]

/-- Execution path of `check_pinecone.py` when the listing succeeds and
the `medicalbot` index is present. -/
theorem checkPinecone_found (cw : PineWorld) (names : List String)
    (h1 : cw.importsOk = .ok ()) (h2 : cw.dotenvOk = .ok ())
    (h3 : truthy (cw.environ1 "PINECONE_API_KEY") = true)
    (h4 : cw.pineconeCtor = .ok ()) (h5 : cw.listIndexes = .ok names)
    (h6 : names.contains "medicalbot" = true) :
    checkPinecone cw =
      { lines := [Line.header "🔍 Checking Pinecone Index...",
                  Line.infoLine ("📋 Available indexes: " ++ toString names),
                  Line.infoLine "✅ \x27medicalbot\x27 index exists!",
                  Line.infoLine "🎉 Your Pinecone setup is ready!"],
        exitCode := 0,
        ops := [Op.loadDotenvOp, Op.pineconeCtorOp, Op.listIndexesOp],
        envWrites := [], environFinal := cw.environ1 } := by
  have h6m : "medicalbot" ∈ names := by simpa using h6
  simp [checkPinecone, h1, h2, h3, h4, h5, h6m]

/-- Execution path of `check_pinecone.py` when the listing succeeds and
the `medicalbot` index is absent. -/
theorem checkPinecone_notFound (cw : PineWorld) (names : List String)
    (h1 : cw.importsOk = .ok ()) (h2 : cw.dotenvOk = .ok ())
    (h3 : truthy (cw.environ1 "PINECONE_API_KEY") = true)
    (h4 : cw.pineconeCtor = .ok ()) (h5 : cw.listIndexes = .ok names)
    (h6 : names.contains "medicalbot" = false) :
    checkPinecone cw =
      { lines := [Line.header "🔍 Checking Pinecone Index...",
                  Line.infoLine ("📋 Available indexes: " ++ toString names),
                  Line.infoLine "⚠️  \x27medicalbot\x27 index not found.",
                  Line.infoLine "📝 Run: python store_index.py to create it"],
        exitCode := 0,
        ops := [Op.loadDotenvOp, Op.pineconeCtorOp, Op.listIndexesOp],
        envWrites := [], environFinal := cw.environ1 } := by
  have h6m : "medicalbot" ∉ names := by simpa using h6
  simp [checkPinecone, h1, h2, h3, h4, h5, h6m]

/-- `check_pinecone.py` never invokes the index-creating operation of
the vector service: it is read-only towards the service. -/
theorem checkPinecone_no_create (cw : PineWorld) :
    Op.createIndexOp ∉ (checkPinecone cw).ops := by
  obtain ⟨imp, dot, e0, e1, pc, li⟩ := cw
  cases imp with
  | error e => simp [checkPinecone]
  | ok u =>
  cases dot with
  | error e => simp [checkPinecone]
  | ok u =>
  cases h : truthy (e1 "PINECONE_API_KEY") with
  | false => simp [checkPinecone, h]
  | true =>
  cases pc with
  | error e => simp [checkPinecone, h]
  | ok u2 =>
  cases li with
  | error e => simp [checkPinecone, h]
  | ok names =>
    simp [checkPinecone, h, apply_ite RunResult.ops]

/-- C4: when `list_indexes` succeeds, `check_pinecone.py` prints the
success report (index exists, setup ready) exactly when `medicalbot` is
among the returned names, and otherwise prints the not-found warning
together with the guidance to create the index. -/
theorem C4_index_membership (cw : PineWorld) (names : List String)
    (h1 : cw.importsOk = .ok ()) (h2 : cw.dotenvOk = .ok ())
    (h3 : truthy (cw.environ1 "PINECONE_API_KEY") = true)
    (h4 : cw.pineconeCtor = .ok ()) (h5 : cw.listIndexes = .ok names) :
    (checkPinecone cw).lines =
      [Line.header "🔍 Checking Pinecone Index...",
       Line.infoLine ("📋 Available indexes: " ++ toString names)] ++
      (if names.contains "medicalbot" then
         [Line.infoLine "✅ \x27medicalbot\x27 index exists!",
          Line.infoLine "🎉 Your Pinecone setup is ready!"]
       else
         [Line.infoLine "⚠️  \x27medicalbot\x27 index not found.",
          Line.infoLine "📝 Run: python store_index.py to create it"]) := by
  cases h6 : names.contains "medicalbot" with
  | true => rw [checkPinecone_found cw names h1 h2 h3 h4 h5 h6]; simp [h6]
  | false => rw [checkPinecone_notFound cw names h1 h2 h3 h4 h5 h6]; simp [h6]

/-- C4 witness: with indexes `["medicalbot", "other"]` the script prints
the success report. -/
theorem C4_witness :
    (checkPinecone cwOk).lines =
      [Line.header "🔍 Checking Pinecone Index...",
       Line.infoLine ("📋 Available indexes: " ++ toString ["medicalbot", "other"])] ++
      (if ["medicalbot", "other"].contains "medicalbot" then
         [Line.infoLine "✅ \x27medicalbot\x27 index exists!",
          Line.infoLine "🎉 Your Pinecone setup is ready!"]
       else
         [Line.infoLine "⚠️  \x27medicalbot\x27 index not found.",
          Line.infoLine "📝 Run: python store_index.py to create it"]) :=
  C4_index_membership cwOk ["medicalbot", "other"] rfl rfl rfl rfl rfl

/-- C9: the named index being absent is not a failure for
`check_pinecone.py` — it prints the not-found warning and the guidance
line and still exits with status 0; moreover the script only reads from
the vector service, never invoking the index-creating operation, despite
its docstring saying it will "fix" the index. -/
theorem C9_absent_index_not_failure (cw : PineWorld) (names : List String)
    (h1 : cw.importsOk = .ok ()) (h2 : cw.dotenvOk = .ok ())
    (h3 : truthy (cw.environ1 "PINECONE_API_KEY") = true)
    (h4 : cw.pineconeCtor = .ok ()) (h5 : cw.listIndexes = .ok names)
    (h6 : names.contains "medicalbot" = false) :
    (checkPinecone cw).exitCode = 0 ∧
    (checkPinecone cw).lines =
      [Line.header "🔍 Checking Pinecone Index...",
       Line.infoLine ("📋 Available indexes: " ++ toString names),
       Line.infoLine "⚠️  \x27medicalbot\x27 index not found.",
       Line.infoLine "📝 Run: python store_index.py to create it"] ∧
    (∀ cw2 : PineWorld, Op.createIndexOp ∉ (checkPinecone cw2).ops) := by
  rw [checkPinecone_notFound cw names h1 h2 h3 h4 h5 h6]
  exact ⟨rfl, rfl, checkPinecone_no_create⟩

/-- C9 witness: with indexes `["other"]` the script warns, guides, exits
with status 0, and never creates an index. -/
theorem C9_witness :
    (checkPinecone cwNoIndex).exitCode = 0 ∧
    (checkPinecone cwNoIndex).lines =
      [Line.header "🔍 Checking Pinecone Index...",
       Line.infoLine ("📋 Available indexes: " ++ toString ["other"]),
       Line.infoLine "⚠️  \x27medicalbot\x27 index not found.",
       Line.infoLine "📝 Run: python store_index.py to create it"] ∧
    Op.createIndexOp ∉ (checkPinecone cwNoIndex).ops := by
  obtain ⟨a, b, c⟩ := C9_absent_index_not_failure cwNoIndex ["other"] rfl rfl rfl rfl rfl rfl
  exact ⟨a, b, c cwNoIndex⟩

/-- C5: when either required API key is absent from the environment, each
script fails at its environment-variable check with exit status 1, and
the only collaborator invoked is `load_dotenv` — the document loader,
embedding model, Pinecone client and Gemini client are never invoked
with the missing key. -/
theorem C5_missing_key (w : World) (cw : PineWorld)
    (hw1 : w.importsOk = .ok ()) (hw2 : w.dotenvOk = .ok ())
    (hw3 : w.environ1 "PINECONE_API_KEY" = none ∨ w.environ1 "GOOGLE_API_KEY" = none)
    (hc1 : cw.importsOk = .ok ()) (hc2 : cw.dotenvOk = .ok ())
    (hc3 : cw.environ1 "PINECONE_API_KEY" = none) :
    (testSetup w).exitCode = 1 ∧
    (testSetup w).lines.getLast? =
      some (Line.failureLine 2 "   ❌ API keys not found in .env file") ∧
    (testSetup w).ops = [Op.loadDotenvOp] ∧
    (checkPinecone cw).exitCode = 1 ∧
    (checkPinecone cw).ops = [Op.loadDotenvOp] := by
  have h3 : (truthy (w.environ1 "PINECONE_API_KEY") &&
             truthy (w.environ1 "GOOGLE_API_KEY")) = false := by
    rcases hw3 with h | h <;> simp [h, truthy]
  rw [testSetup_run2key w hw1 hw2 h3,
      checkPinecone_noKey cw hc1 hc2 (by simp [hc3, truthy])]
  exact ⟨rfl, rfl, rfl, rfl, rfl⟩

/-- C5 witness: with the vector-database key absent in both worlds, both
scripts fail at the key check with exit status 1 and only `load_dotenv`
invoked. -/
theorem C5_witness :
    (testSetup wNoPine).exitCode = 1 ∧
    (testSetup wNoPine).lines.getLast? =
      some (Line.failureLine 2 "   ❌ API keys not found in .env file") ∧
    (testSetup wNoPine).ops = [Op.loadDotenvOp] ∧
    (checkPinecone cwNoKey).exitCode = 1 ∧
    (checkPinecone cwNoKey).ops = [Op.loadDotenvOp] :=
  C5_missing_key wNoPine cwNoKey rfl rfl (Or.inl (by decide)) rfl rfl (by decide)

/-- C6: when every check of `test_setup.py` succeeds, the checks run in
order 1..7, exactly seven success lines are printed, the overall success
banner followed by the next-steps guidance ends the output, and the
process exits with status 0. -/
theorem C6_all_success (w : World) (hk : failStage w = none) :
    countSuccesses (testSetup w).lines = 7 ∧
    beginIndices (testSetup w).lines = [1, 2, 3, 4, 5, 6, 7] ∧
    (testSetup w).ops = [Op.loadDotenvOp, Op.loadPdfOp, Op.textSplitOp,
                         Op.embeddingsOp, Op.pineconeCtorOp, Op.listIndexesOp,
                         Op.geminiCtorOp, Op.geminiInvokeOp] ∧
    List.IsSuffix finalBanner (testSetup w).lines ∧
    (testSetup w).exitCode = 0 := by
  cases him : w.importsOk with
  | error e => simp [failStage, him] at hk
  | ok u =>
  cases u
  cases hdot : w.dotenvOk with
  | error e => simp [failStage, him, hdot] at hk
  | ok u =>
  cases u
  cases h : truthy (w.environ1 "PINECONE_API_KEY") && truthy (w.environ1 "GOOGLE_API_KEY") with
  | false => simp [failStage, him, hdot, h] at hk
  | true =>
  cases hlp : w.loadPdf with
  | error e => simp [failStage, him, hdot, h, hlp] at hk
  | ok pages =>
  cases hts : w.textSplit pages with
  | error e => simp [failStage, him, hdot, h, hlp, hts] at hk
  | ok chunks =>
  cases hem : w.embeddings with
  | error e => simp [failStage, him, hdot, h, hlp, hts, hem] at hk
  | ok u2 =>
  cases u2
  cases hpc : w.pineconeCtor with
  | error e => simp [failStage, him, hdot, h, hlp, hts, hem, hpc] at hk
  | ok u3 =>
  cases u3
  cases hli : w.listIndexes with
  | error e => simp [failStage, him, hdot, h, hlp, hts, hem, hpc, hli] at hk
  | ok names =>
  cases hgc : w.geminiCtor with
  | error e => simp [failStage, him, hdot, h, hlp, hts, hem, hpc, hli, hgc] at hk
  | ok u4 =>
  cases u4
  cases hgi : w.geminiInvoke with
  | error e => simp [failStage, him, hdot, h, hlp, hts, hem, hpc, hli, hgc, hgi] at hk
  | ok resp =>
    rw [testSetup_run7ok w pages chunks names resp him hdot h hlp hts hem hpc hli hgc hgi]
    exact ⟨rfl, rfl, rfl, ⟨_, rfl⟩, rfl⟩

/-- C6 witness: in the all-success world, the seven checks run in order,
seven success lines appear, the banner and guidance end the output, and
the exit status is 0. -/
theorem C6_witness :
    countSuccesses (testSetup wAllOk).lines = 7 ∧
    beginIndices (testSetup wAllOk).lines = [1, 2, 3, 4, 5, 6, 7] ∧
    (testSetup wAllOk).ops = [Op.loadDotenvOp, Op.loadPdfOp, Op.textSplitOp,
                              Op.embeddingsOp, Op.pineconeCtorOp, Op.listIndexesOp,
                              Op.geminiCtorOp, Op.geminiInvokeOp] ∧
    List.IsSuffix finalBanner (testSetup wAllOk).lines ∧
    (testSetup wAllOk).exitCode = 0 :=
  C6_all_success wAllOk (by decide)

/-- C7 counterexample: in the all-success run, check 7 (Gemini) emits two
post-invocation lines — the success line and the truncated test-response
line — contradicting the claim that no check emits more than one
post-invocation line. -/
theorem C7_counterexample :
    countPost 7 (testSetup wAllOk).lines = 2 ∧
    countPost 7 (testSetup wGemErr).lines = 2 := ⟨rfl, rfl⟩

/-- C7 (amended): every check that starts emits exactly one begin line;
every check that completes or fails emits exactly one post-invocation
line, except the Gemini check (check 7), which emits two — the success
line plus the response preview on success, or the failure line plus the
💡 tip on failure.  Checks after the failing one emit nothing. -/
theorem C7_per_check_lines (w : World) (k : Nat) (h1k : 1 ≤ k) (h7k : k ≤ 7) :
    countBeginOf k (testSetup w).lines = (if k ≤ reached w then 1 else 0) ∧
    countPost k (testSetup w).lines =
      (if k ≤ reached w then (if k = 7 then 2 else 1) else 0) := by
  cases him : w.importsOk with
  | error e =>
    rw [testSetup_run1 w e him]
    have hr : reached w = 1 := by simp [reached, failStage, him]
    rw [hr]
    interval_cases k <;> exact ⟨rfl, rfl⟩
  | ok u =>
  cases u
  cases hdot : w.dotenvOk with
  | error e =>
    rw [testSetup_run2dot w e him hdot]
    have hr : reached w = 2 := by simp [reached, failStage, him, hdot]
    rw [hr]
    interval_cases k <;> exact ⟨rfl, rfl⟩
  | ok u =>
  cases u
  cases h : truthy (w.environ1 "PINECONE_API_KEY") && truthy (w.environ1 "GOOGLE_API_KEY") with
  | false =>
    rw [testSetup_run2key w him hdot h]
    have hr : reached w = 2 := by simp [reached, failStage, him, hdot, h]
    rw [hr]
    interval_cases k <;> exact ⟨rfl, rfl⟩
  | true =>
  cases hlp : w.loadPdf with
  | error e =>
    rw [testSetup_run3 w e him hdot h hlp]
    have hr : reached w = 3 := by simp [reached, failStage, him, hdot, h, hlp]
    rw [hr]
    interval_cases k <;> exact ⟨rfl, rfl⟩
  | ok pages =>
  cases hts : w.textSplit pages with
  | error e =>
    rw [testSetup_run4 w pages e him hdot h hlp hts]
    have hr : reached w = 4 := by simp [reached, failStage, him, hdot, h, hlp, hts]
    rw [hr]
    interval_cases k <;> exact ⟨rfl, rfl⟩
  | ok chunks =>
  cases hem : w.embeddings with
  | error e =>
    rw [testSetup_run5 w pages chunks e him hdot h hlp hts hem]
    have hr : reached w = 5 := by simp [reached, failStage, him, hdot, h, hlp, hts, hem]
    rw [hr]
    interval_cases k <;> exact ⟨rfl, rfl⟩
  | ok u2 =>
  cases u2
  cases hpc : w.pineconeCtor with
  | error e =>
    rw [testSetup_run6ctor w pages chunks e him hdot h hlp hts hem hpc]
    have hr : reached w = 6 := by simp [reached, failStage, him, hdot, h, hlp, hts, hem, hpc]
    rw [hr]
    interval_cases k <;> exact ⟨rfl, rfl⟩
  | ok u3 =>
  cases u3
  cases hli : w.listIndexes with
  | error e =>
    rw [testSetup_run6list w pages chunks e him hdot h hlp hts hem hpc hli]
    have hr : reached w = 6 := by
      simp [reached, failStage, him, hdot, h, hlp, hts, hem, hpc, hli]
    rw [hr]
    interval_cases k <;> exact ⟨rfl, rfl⟩
  | ok names =>
  cases hgc : w.geminiCtor with
  | error e =>
    rw [testSetup_run7ctor w pages chunks names e him hdot h hlp hts hem hpc hli hgc]
    have hr : reached w = 7 := by
      simp [reached, failStage, him, hdot, h, hlp, hts, hem, hpc, hli, hgc]
    rw [hr]
    interval_cases k <;> exact ⟨rfl, rfl⟩
  | ok u4 =>
  cases u4
  cases hgi : w.geminiInvoke with
  | error e =>
    rw [testSetup_run7inv w pages chunks names e him hdot h hlp hts hem hpc hli hgc hgi]
    have hr : reached w = 7 := by
      simp [reached, failStage, him, hdot, h, hlp, hts, hem, hpc, hli, hgc, hgi]
    rw [hr]
    interval_cases k <;> exact ⟨rfl, rfl⟩
  | ok resp =>
    rw [testSetup_run7ok w pages chunks names resp him hdot h hlp hts hem hpc hli hgc hgi]
    have hr : reached w = 7 := by
      simp [reached, failStage, him, hdot, h, hlp, hts, hem, hpc, hli, hgc, hgi]
    rw [hr]
    interval_cases k <;> exact ⟨rfl, rfl⟩

/-- C7 witness: in the all-success world, check 7 starts (one begin
line) and emits two post-invocation lines. -/
theorem C7_witness :
    countBeginOf 7 (testSetup wAllOk).lines = (if 7 ≤ reached wAllOk then 1 else 0) ∧
    countPost 7 (testSetup wAllOk).lines =
      (if 7 ≤ reached wAllOk then (if 7 = 7 then 2 else 1) else 0) :=
  C7_per_check_lines wAllOk 7 (by decide) (by decide)

/-- `check_pinecone.py` performs no writes on the process environment. -/
theorem checkPinecone_envWrites (cw : PineWorld) :
    (checkPinecone cw).envWrites = [] := by
  obtain ⟨imp, dot, e0, e1, pc, li⟩ := cw
  cases imp with
  | error e => simp [checkPinecone]
  | ok u =>
  cases dot with
  | error e => simp [checkPinecone]
  | ok u =>
  cases h : truthy (e1 "PINECONE_API_KEY") with
  | false => simp [checkPinecone, h]
  | true =>
  cases pc with
  | error e => simp [checkPinecone, h]
  | ok u2 =>
  cases li with
  | error e => simp [checkPinecone, h]
  | ok names =>
    simp [checkPinecone, h, apply_ite RunResult.envWrites]

/-- C8 counterexample: check 7 of `test_setup.py` executes
`os.environ["GOOGLE_API_KEY"] = GOOGLE_API_KEY`, a write to process-global
environment state, so the run's list of environment writes is non-empty —
contradicting the claim that no check writes to process-global state. -/
theorem C8_counterexample :
    (testSetup wAllOk).envWrites = [("GOOGLE_API_KEY", "gk-456")] ∧
    (testSetup wAllOk).envWrites ≠ [] := ⟨rfl, by decide⟩

/-- C8 (amended): the only ambient write either script performs is the
Gemini check's assignment of `GOOGLE_API_KEY`; the value written is
exactly the value the environment already holds for that key, so the
environment map is left extensionally unchanged, and `check_pinecone.py`
performs no environment writes at all. -/
theorem C8_env_writes (w : World) (cw : PineWorld) (s : String)
    (hw : (testSetup w).envWrites ≠ []) :
    (testSetup w).envWrites =
      [("GOOGLE_API_KEY", (w.environ1 "GOOGLE_API_KEY").getD "")] ∧
    w.environ1 "GOOGLE_API_KEY" = some ((w.environ1 "GOOGLE_API_KEY").getD "") ∧
    (testSetup w).environFinal s = w.environ1 s ∧
    (checkPinecone cw).envWrites = [] := by
  cases him : w.importsOk with
  | error e => rw [testSetup_run1 w e him] at hw; simp at hw
  | ok u =>
  cases u
  cases hdot : w.dotenvOk with
  | error e => rw [testSetup_run2dot w e him hdot] at hw; simp at hw
  | ok u =>
  cases u
  cases h : truthy (w.environ1 "PINECONE_API_KEY") && truthy (w.environ1 "GOOGLE_API_KEY") with
  | false => rw [testSetup_run2key w him hdot h] at hw; simp at hw
  | true =>
  have hval : w.environ1 "GOOGLE_API_KEY" =
      some ((w.environ1 "GOOGLE_API_KEY").getD "") := by
    cases hg : w.environ1 "GOOGLE_API_KEY" with
    | none => simp [hg, truthy] at h
    | some g => simp
  cases hlp : w.loadPdf with
  | error e => rw [testSetup_run3 w e him hdot h hlp] at hw; simp at hw
  | ok pages =>
  cases hts : w.textSplit pages with
  | error e => rw [testSetup_run4 w pages e him hdot h hlp hts] at hw; simp at hw
  | ok chunks =>
  cases hem : w.embeddings with
  | error e => rw [testSetup_run5 w pages chunks e him hdot h hlp hts hem] at hw; simp at hw
  | ok u2 =>
  cases u2
  cases hpc : w.pineconeCtor with
  | error e =>
    rw [testSetup_run6ctor w pages chunks e him hdot h hlp hts hem hpc] at hw
    simp at hw
  | ok u3 =>
  cases u3
  cases hli : w.listIndexes with
  | error e =>
    rw [testSetup_run6list w pages chunks e him hdot h hlp hts hem hpc hli] at hw
    simp at hw
  | ok names =>
  cases hgc : w.geminiCtor with
  | error e =>
    rw [testSetup_run7ctor w pages chunks names e him hdot h hlp hts hem hpc hli hgc]
    refine ⟨rfl, hval, ?_, checkPinecone_envWrites cw⟩
    by_cases hs : s = "GOOGLE_API_KEY" <;> simp [hs]
  | ok u4 =>
  cases u4
  cases hgi : w.geminiInvoke with
  | error e =>
    rw [testSetup_run7inv w pages chunks names e him hdot h hlp hts hem hpc hli hgc hgi]
    refine ⟨rfl, hval, ?_, checkPinecone_envWrites cw⟩
    by_cases hs : s = "GOOGLE_API_KEY" <;> simp [hs]
  | ok resp =>
    rw [testSetup_run7ok w pages chunks names resp him hdot h hlp hts hem hpc hli hgc hgi]
    refine ⟨rfl, hval, ?_, checkPinecone_envWrites cw⟩
    by_cases hs : s = "GOOGLE_API_KEY" <;> simp [hs]

/-- C8 witness: in the all-success world, the single environment write is
the Gemini check's rewrite of `GOOGLE_API_KEY` with the value already
present, and the final environment agrees with the pre-run environment. -/
theorem C8_witness :
    (testSetup wAllOk).envWrites =
      [("GOOGLE_API_KEY", (wAllOk.environ1 "GOOGLE_API_KEY").getD "")] ∧
    wAllOk.environ1 "GOOGLE_API_KEY" =
      some ((wAllOk.environ1 "GOOGLE_API_KEY").getD "") ∧
    (testSetup wAllOk).environFinal "GOOGLE_API_KEY" =
      wAllOk.environ1 "GOOGLE_API_KEY" ∧
    (checkPinecone cwOk).envWrites = [] :=
  C8_env_writes wAllOk cwOk "GOOGLE_API_KEY" (by decide)

/-- C10: an API key set to the empty string is treated exactly like an
absent key — removing the empty-string variable from the environment
changes nothing observable about either script's run (same lines, same
exit status, same operations invoked, same environment writes). -/
theorem C10_empty_key_like_absent (w : World) (cw : PineWorld) (kname : String)
    (hk : kname = "PINECONE_API_KEY" ∨ kname = "GOOGLE_API_KEY")
    (hw : w.environ1 kname = some "")
    (hc : cw.environ1 "PINECONE_API_KEY" = some "") :
    ((testSetup { w with environ1 := removeKey w.environ1 kname }).lines =
       (testSetup w).lines ∧
     (testSetup { w with environ1 := removeKey w.environ1 kname }).exitCode =
       (testSetup w).exitCode ∧
     (testSetup { w with environ1 := removeKey w.environ1 kname }).ops =
       (testSetup w).ops ∧
     (testSetup { w with environ1 := removeKey w.environ1 kname }).envWrites =
       (testSetup w).envWrites) ∧
    ((checkPinecone { cw with environ1 := removeKey cw.environ1 "PINECONE_API_KEY" }).lines =
       (checkPinecone cw).lines ∧
     (checkPinecone { cw with environ1 := removeKey cw.environ1 "PINECONE_API_KEY" }).exitCode =
       (checkPinecone cw).exitCode ∧
     (checkPinecone { cw with environ1 := removeKey cw.environ1 "PINECONE_API_KEY" }).ops =
       (checkPinecone cw).ops ∧
     (checkPinecone { cw with environ1 := removeKey cw.environ1 "PINECONE_API_KEY" }).envWrites =
       (checkPinecone cw).envWrites) := by
  constructor
  · obtain ⟨imp, dot, e0, e1, lp, ts, em, pc, li, gc, gi⟩ := w
    simp only at hw
    cases imp with
    | error e => refine ⟨?_, ?_, ?_, ?_⟩ <;> simp [testSetup]
    | ok u =>
    cases dot with
    | error e => refine ⟨?_, ?_, ?_, ?_⟩ <;> simp [testSetup]
    | ok u =>
    have hfw : (truthy (e1 "PINECONE_API_KEY") &&
                truthy (e1 "GOOGLE_API_KEY")) = false := by
      rcases hk with h | h <;> subst h <;> simp [hw, truthy]
    have hfw2 : (truthy (removeKey e1 kname "PINECONE_API_KEY") &&
                 truthy (removeKey e1 kname "GOOGLE_API_KEY")) = false := by
      rcases hk with h | h <;> subst h <;> simp [removeKey, truthy]
    refine ⟨?_, ?_, ?_, ?_⟩ <;> simp [testSetup, hfw, hfw2]
  · obtain ⟨imp, dot, e0, e1, pc, li⟩ := cw
    simp only at hc
    cases imp with
    | error e => refine ⟨?_, ?_, ?_, ?_⟩ <;> simp [checkPinecone]
    | ok u =>
    cases dot with
    | error e => refine ⟨?_, ?_, ?_, ?_⟩ <;> simp [checkPinecone]
    | ok u =>
    have t1 : truthy (e1 "PINECONE_API_KEY") = false := by simp [hc, truthy]
    have t2 : truthy (removeKey e1 "PINECONE_API_KEY" "PINECONE_API_KEY") = false := by
      simp [removeKey, truthy]
    refine ⟨?_, ?_, ?_, ?_⟩ <;> simp [checkPinecone, t1, t2]

/-- C10 witness: with the vector-database key set to the empty string,
both scripts behave observably the same as with the key removed. -/
theorem C10_witness :
    ((testSetup { wPineEmpty with
        environ1 := removeKey wPineEmpty.environ1 "PINECONE_API_KEY" }).lines =
       (testSetup wPineEmpty).lines ∧
     (testSetup { wPineEmpty with
        environ1 := removeKey wPineEmpty.environ1 "PINECONE_API_KEY" }).exitCode =
       (testSetup wPineEmpty).exitCode ∧
     (testSetup { wPineEmpty with
        environ1 := removeKey wPineEmpty.environ1 "PINECONE_API_KEY" }).ops =
       (testSetup wPineEmpty).ops ∧
     (testSetup { wPineEmpty with
        environ1 := removeKey wPineEmpty.environ1 "PINECONE_API_KEY" }).envWrites =
       (testSetup wPineEmpty).envWrites) ∧
    ((checkPinecone { cwPineEmpty with
        environ1 := removeKey cwPineEmpty.environ1 "PINECONE_API_KEY" }).lines =
       (checkPinecone cwPineEmpty).lines ∧
     (checkPinecone { cwPineEmpty with
        environ1 := removeKey cwPineEmpty.environ1 "PINECONE_API_KEY" }).exitCode =
       (checkPinecone cwPineEmpty).exitCode ∧
     (checkPinecone { cwPineEmpty with
        environ1 := removeKey cwPineEmpty.environ1 "PINECONE_API_KEY" }).ops =
       (checkPinecone cwPineEmpty).ops ∧
     (checkPinecone { cwPineEmpty with
        environ1 := removeKey cwPineEmpty.environ1 "PINECONE_API_KEY" }).envWrites =
       (checkPinecone cwPineEmpty).envWrites) :=
  C10_empty_key_like_absent wPineEmpty cwPineEmpty "PINECONE_API_KEY"
    (Or.inl rfl) (by decide) (by decide)
